import Mathlib

/-!
Verification of the cricbuzz_livestats repository's normalization and SQL
gateway layers.

The development shallowly embeds the pure logic of two source files:

* `pages/live_matches.py` — tolerant JSON response normalization
  (`show_innings_scorecard`, `show_live_matches`);
* `utils/db_connection.py` — the schema-driven SQL gateway
  (`get_mysql_schema`, `fetch_table`, `run_select`, `insert_row`,
  `delete_rows`, `execute_update`).

JSON documents are embedded as the inductive type `JVal`; Python dicts are
association lists looked up at the first matching key (Python dict keys are
unique, so first-match lookup agrees with dict semantics).  Python string
operations used by the code (`str.strip`, `str.lower`, `str.upper`,
`str.startswith`, `str.join`) are re-implemented structurally so that every
definition evaluates by `decide` / `rfl`.  Functions that open a database
connection are modelled as pure functions that also return the list of
database events (connection opened, statement executed) they would perform,
so "performs no database call" is the statement that the event trace is
empty.  Python exceptions raised by the embedded code are modelled with
`Except` (validation errors raised by the gateway) and `Option`
(type errors such as calling `.get` on a non-dict).
-/

/-- Python truthiness of a whitespace character, matching `str.strip`'s
default strip set (space, tab, newline, carriage return, vertical tab,
form feed). -/
def pyIsSpace (c : Char) : Bool :=
  c = ' ' || c = '\t' || c = '\n' || c = '\r' || c = '\x0b' || c = '\x0c'

/-- Embedding of Python `str.strip()` (no argument): removes leading and
trailing whitespace. -/
def pyStrip (s : String) : String :=
  ⟨((s.data.dropWhile pyIsSpace).reverse.dropWhile pyIsSpace).reverse⟩

/-- ASCII lowering of one character, as Python `str.lower` acts on the
ASCII range (the SQL keywords the code compares are ASCII). -/
def pyLowerChar (c : Char) : Char :=
  if 65 ≤ c.toNat && c.toNat ≤ 90 then Char.ofNat (c.toNat + 32) else c

/-- Embedding of Python `str.lower()` on ASCII text. -/
def pyLower (s : String) : String := ⟨s.data.map pyLowerChar⟩

/-- ASCII raising of one character, as Python `str.upper` acts on the
ASCII range. -/
def pyUpperChar (c : Char) : Char :=
  if 97 ≤ c.toNat && c.toNat ≤ 122 then Char.ofNat (c.toNat - 32) else c

/-- Embedding of Python `str.upper()` on ASCII text. -/
def pyUpper (s : String) : String := ⟨s.data.map pyUpperChar⟩

/-- First list is a leading segment of the second. -/
def charsStartWith : List Char → List Char → Bool
  | [], _ => true
  | _ :: _, [] => false
  | p :: ps, c :: cs => p = c && charsStartWith ps cs

/-- Embedding of Python `s.startswith(pre)`. -/
def pyStartsWith (s pre : String) : Bool := charsStartWith pre.data s.data

/-- Embedding of Python `sep.join(parts)`. -/
def pyJoin (sep : String) : List String → String
  | [] => ""
  | [x] => x
  | x :: y :: xs => x ++ sep ++ pyJoin sep (y :: xs)

/-- JSON values as delivered by the Cricbuzz API: the weakly typed
documents consumed by `pages/live_matches.py`.  Python dicts are
association lists of string keys. -/
inductive JVal where
  | null
  | bool (b : Bool)
  | int (n : Int)
  | str (s : String)
  | arr (xs : List JVal)
  | obj (kvs : List (String × JVal))

/-- Python truthiness (`bool(v)`): `None`, `False`, `0`, `""`, `[]` and
`{}` are falsy, everything else truthy.  This drives every `or`-chain and
every `if not v:` test in the embedded code. -/
def truthy : JVal → Bool
  | .null => false
  | .bool b => b
  | .int n => n != 0
  | .str s => !s.isEmpty
  | .arr xs => !xs.isEmpty
  | .obj kvs => !kvs.isEmpty

/-- Embedding of Python's short-circuit `a or b` on JSON values: the left
operand when it is truthy, otherwise the right operand. -/
def pyOr (a b : JVal) : JVal := if truthy a then a else b

/-- Lookup of a key in a Python dict (association list, first match):
`d[k]` when present.  Python dict keys are unique so first-match lookup
coincides with dict access. -/
def lookupVal (kvs : List (String × JVal)) (k : String) : Option JVal :=
  (kvs.find? (fun p => p.1 == k)).map Prod.snd

/-- Embedding of Python `d.get(k, default)` (and `d.get(k)` with
`default = JVal.null`, i.e. `None`). -/
def getD (kvs : List (String × JVal)) (k : String) (d : JVal) : JVal :=
  (lookupVal kvs k).getD d

/-- Embedding of Python dict assignment `d[k] = v` on the association
list: replaces the value in place when the key exists (position kept),
otherwise appends the pair. -/
def dictSet (m : List (String × JVal)) (k : String) (v : JVal) :
    List (String × JVal) :=
  if m.any (fun p => p.1 == k) then
    m.map (fun p => if p.1 == k then (p.1, v) else p)
  else m ++ [(k, v)]

/-- Python `isinstance(v, list)`. -/
def isList : JVal → Bool
  | .arr _ => true
  | _ => false

/-- Python `isinstance(v, dict)`. -/
def isDict : JVal → Bool
  | .obj _ => true
  | _ => false

/-- View of a JSON value as a list, `none` when iterating it as a
sequence would be a type error. -/
def asArr : JVal → Option (List JVal)
  | .arr xs => some xs
  | _ => none

/-- View of a JSON value as a dict, `none` when calling `.get` on it
would raise `AttributeError`. -/
def asObj : JVal → Option (List (String × JVal))
  | .obj kvs => some kvs
  | _ => none

/-- View of a JSON value as a string, `none` when a string method on it
would raise. -/
def asStr : JVal → Option String
  | .str s => some s
  | _ => none

/-!
Embedding of the scorecard normalization in `show_innings_scorecard`
(`pages/live_matches.py`, lines 45-137).  The rendering calls
(`st.subheader`, `st.dataframe`, ...) are presentation-layer side effects
outside the normalization logic; the embedded functions compute exactly
the data those calls display.
-/

/-- Normalized batting row built at `pages/live_matches.py` lines 90-101.
Each field is the Python `or`-chain over the documented aliases. -/
structure BatRow where
  name : JVal
  runs : JVal
  balls : JVal
  fours : JVal
  sixes : JVal
  sr : JVal
  out : JVal

/-- One batting participant record normalized to a `BatRow`
(`pages/live_matches.py` lines 91-101); `none` models the
`AttributeError` Python raises when the participant is not a dict. -/
def batRow : JVal → Option BatRow
  | .obj b =>
    some
      { name := pyOr (getD b "name" JVal.null) (getD b "batName" (JVal.str "")),
        runs := pyOr (getD b "runs" JVal.null) (getD b "r" (JVal.int 0)),
        balls := pyOr (getD b "balls" JVal.null) (getD b "b" (JVal.int 0)),
        fours := pyOr (getD b "fours" JVal.null) (getD b "4s" (JVal.int 0)),
        sixes := pyOr (getD b "sixes" JVal.null) (getD b "6s" (JVal.int 0)),
        sr := pyOr (getD b "strkrate" JVal.null) (getD b "sr" (JVal.int 0)),
        out := pyOr (getD b "outdec" JVal.null) (getD b "howOut" (JVal.str "")) }
  | _ => none

/-- Batting participant source selection (`pages/live_matches.py` lines
82-88): the list under `batsman` when that value is a list, else the
values of the dict under `batsmenData` when that value is a dict, else
the empty list. -/
def batsmenSource (innings : List (String × JVal)) : List JVal :=
  match getD innings "batsman" JVal.null with
  | .arr xs => xs
  | _ =>
    match getD innings "batsmenData" JVal.null with
    | .obj kvs => kvs.map Prod.snd
    | _ => []

/-- All normalized batting rows of one innings (`pages/live_matches.py`
lines 79-101); `none` models a raised exception inside the loop. -/
def battingRows (innings : List (String × JVal)) : Option (List BatRow) :=
  (batsmenSource innings).mapM batRow

/-- Normalized bowling row built at `pages/live_matches.py` lines
121-131. -/
structure BowlRow where
  name : JVal
  overs : JVal
  runs : JVal
  wickets : JVal
  maidens : JVal
  economy : JVal

/-- One bowling participant record normalized to a `BowlRow`
(`pages/live_matches.py` lines 122-131). -/
def bowlRow : JVal → Option BowlRow
  | .obj b =>
    some
      { name := pyOr (getD b "name" JVal.null) (getD b "bowlName" (JVal.str "")),
        overs := pyOr (getD b "overs" JVal.null) (getD b "ov" (JVal.int 0)),
        runs := pyOr (getD b "runs" JVal.null) (getD b "r" (JVal.int 0)),
        wickets := pyOr (getD b "wickets" JVal.null) (getD b "w" (JVal.int 0)),
        maidens := pyOr (getD b "maidens" JVal.null) (getD b "m" (JVal.int 0)),
        economy := pyOr (getD b "economy" JVal.null) (getD b "econ" (JVal.int 0)) }
  | _ => none

/-- Bowling participant source selection (`pages/live_matches.py` lines
113-119). -/
def bowlersSource (innings : List (String × JVal)) : List JVal :=
  match getD innings "bowler" JVal.null with
  | .arr xs => xs
  | _ =>
    match getD innings "bowlersData" JVal.null with
    | .obj kvs => kvs.map Prod.snd
    | _ => []

/-- All normalized bowling rows of one innings (`pages/live_matches.py`
lines 110-131). -/
def bowlingRows (innings : List (String × JVal)) : Option (List BowlRow) :=
  (bowlersSource innings).mapM bowlRow

/-- Innings collection resolution (`pages/live_matches.py` lines 46-51):
the Python `or`-chain
`data.get("scorecard") or data.get("scoreCard") or data.get("innings")
or data.get("scoreCards")`. -/
def resolveInnings (data : List (String × JVal)) : JVal :=
  pyOr (getD data "scorecard" JVal.null)
    (pyOr (getD data "scoreCard" JVal.null)
      (pyOr (getD data "innings" JVal.null) (getD data "scoreCards" JVal.null)))

/-- Outcome of locating the innings collection: the no-data fallback
(raw payload shown, lines 53-60), the located sequence of innings
records, or a type error (iterating a truthy scalar). -/
inductive InningsResolution where
  | noData
  | found (records : List JVal)
  | notIterable

/-- Innings records produced by `show_innings_scorecard`
(`pages/live_matches.py` lines 46-66): resolve the collection via the
alias chain, fall back to the no-data branch when it is falsy, convert a
dict to the list of its values in iteration order (line 63-64), and
iterate. -/
def inningsRecords (data : List (String × JVal)) : InningsResolution :=
  match resolveInnings data with
  | .obj kvs =>
    if kvs.isEmpty then .noData else .found (kvs.map Prod.snd)
  | .arr xs =>
    if xs.isEmpty then .noData else .found xs
  | v => if truthy v then .notIterable else .noData

/-!
Embedding of the live-matches grouping in `show_live_matches`
(`pages/live_matches.py` lines 162-174): the `series_options` dict built
from the raw live-matches document.
-/

/-- Grouping of live matches by series, built at `pages/live_matches.py`
lines 162-174.  `data.get("typeMatches", [])` is iterated; each type
entry contributes its `seriesMatches`, and each series with a truthy
`matches` value under `seriesAdWrapper` is stored under the key
`"<seriesName> (<MATCHTYPE>)"`.  The result is the association list of
that dict; `none` models a Python type error raised while iterating
(non-list `typeMatches`/`seriesMatches`, non-dict entries, or a
non-string name where the code calls a string method). -/
def seriesOptionsOf (data : List (String × JVal)) :
    Option (List (String × JVal)) := do
  let tms ← asArr (getD data "typeMatches" (JVal.arr []))
  tms.foldlM
    (fun acc tm => do
      let tmo ← asObj tm
      let mt ← asStr (getD tmo "matchType" (JVal.str "UNKNOWN"))
      let sms ← asArr (getD tmo "seriesMatches" (JVal.arr []))
      sms.foldlM
        (fun acc2 series => do
          let so ← asObj series
          let wo ← asObj (getD so "seriesAdWrapper" (JVal.obj []))
          let matchesVal := getD wo "matches" JVal.null
          if truthy matchesVal = false then pure acc2
          else do
            let sn ← asStr (getD wo "seriesName" (JVal.str "Unnamed Series"))
            pure (dictSet acc2 (sn ++ " (" ++ pyUpper mt ++ ")") matchesVal))
        acc)
    []

/-!
Embedding of the SQL gateway in `utils/db_connection.py`.  Each gateway
function opens its own connection, executes, and closes; the embedding
returns the list of database events the call performs alongside the
Python return value (or the `ValueError` it raises).  The MySQL driver
itself is an external collaborator: the row count returned by
`cursor.execute` and the rows returned by `pandas.read_sql` are supplied
as a function parameter.
-/

/-- One observable database interaction: a connection being opened
(`create_connection`) or a statement reaching the engine
(`cursor.execute` / `pandas.read_sql`). -/
inductive DbEvent where
  | connect
  | exec (sql : String)
deriving DecidableEq

/-- Boolean test that an `Except` result is a success, i.e. the embedded
Python call returned instead of raising. -/
def exceptIsOk {α : Type} : Except String α → Bool
  | .ok _ => true
  | .error _ => false

/-- Embedding of `run_select` (`utils/db_connection.py` lines 139-150):
rejects any statement whose stripped, lowered text does not start with
`select`, otherwise connects and runs the query through the engine
`exq`. -/
def run_select (exq : String → List (List JVal)) (select_sql : String) :
    List DbEvent × Except String (List (List JVal)) :=
  if pyStartsWith (pyLower (pyStrip select_sql)) "select" = false then
    ([], .error "Only SELECT queries are allowed.")
  else
    ([.connect, .exec select_sql], .ok (exq select_sql))

/-- SQL text built by `insert_row` (`utils/db_connection.py` lines
162-165): backtick-quoted column names and one `%s` placeholder per
column. -/
def insertSql (table : String) (data : List (String × JVal)) : String :=
  "INSERT INTO `" ++ table ++ "` ("
    ++ pyJoin ", " (data.map (fun p => "`" ++ p.1 ++ "`"))
    ++ ") VALUES ("
    ++ pyJoin ", " (data.map (fun _ => "%s"))
    ++ ");"

/-- Embedding of `insert_row` (`utils/db_connection.py` lines 156-175):
builds the parameterized statement, connects, executes with the bound
values, and returns `(rowcount, sql)`.  The function performs no
validation of `data`. -/
def insert_row (ex : String → List JVal → Nat) (table : String)
    (data : List (String × JVal)) :
    List DbEvent × Except String (Nat × String) :=
  let sql := insertSql table data
  ([.connect, .exec sql], .ok (ex sql (data.map Prod.snd), sql))

/-- Embedding of `delete_rows` (`utils/db_connection.py` lines 181-195):
raises `ValueError` on an empty stripped WHERE clause before opening any
connection, otherwise connects and executes the DELETE. -/
def delete_rows (ex : String → Nat) (table where_clause : String) :
    List DbEvent × Except String (Nat × String) :=
  let w := pyStrip where_clause
  if w = "" then ([], .error "Refusing to DELETE without WHERE clause.")
  else
    let sql := "DELETE FROM `" ++ table ++ "` WHERE " ++ w ++ ";"
    ([.connect, .exec sql], .ok (ex sql, sql))

/-- Embedding of `execute_update` (`utils/db_connection.py` lines
201-218): raises on an empty stripped SET clause, then on an empty
stripped WHERE clause, both before opening any connection; otherwise
connects and executes the UPDATE. -/
def execute_update (ex : String → Nat) (table set_clause where_clause : String) :
    List DbEvent × Except String (Nat × String) :=
  let sp := pyStrip set_clause
  let wp := pyStrip where_clause
  if sp = "" then ([], .error "SET clause cannot be empty.")
  else if wp = "" then ([], .error "Refusing to UPDATE without WHERE clause.")
  else
    let sql := "UPDATE `" ++ table ++ "` SET " ++ sp ++ " WHERE " ++ wp ++ ";"
    ([.connect, .exec sql], .ok (ex sql, sql))

/-- Result-set semantics of the external MySQL engine for the one
statement shape `fetch_table` issues: `SELECT * FROM t LIMIT n` returns
the first `n` rows of the table.  The engine is an external collaborator
of the repository; only its documented LIMIT behaviour is modelled. -/
def mysqlSelectAllWithLimit (tableRows : List (List JVal)) (limit : Nat) :
    List (List JVal) :=
  tableRows.take limit

/-- Embedding of `fetch_table` (`utils/db_connection.py` lines 125-133):
builds `SELECT * FROM `t` LIMIT n;` with the table name backtick-quoted
and the limit printed as an integer (`int(limit)`; the model takes the
limit as a natural number, the value that coercion produces), connects,
reads the rows through the engine, and returns `(rows, sql)`. -/
def fetch_table (tableRows : List (List JVal)) (table : String) (limit : Nat) :
    List DbEvent × (List (List JVal) × String) :=
  let sql := "SELECT * FROM `" ++ table ++ "` LIMIT " ++ toString limit ++ ";"
  ([.connect, .exec sql], (mysqlSelectAllWithLimit tableRows limit, sql))

/-- Column metadata row returned by the INFORMATION_SCHEMA query at
`utils/db_connection.py` lines 63-83: name, declared type, nullability,
key role, default, extra attributes. -/
structure ColumnMeta where
  colName : String
  dataType : String
  nullable : String
  keyRole : String
  colDefault : Option String
  extra : String
deriving DecidableEq

/-- Abstract state of one MySQL database as the discovery queries see
it: its base tables with their column metadata, and the names of its
views, stored functions and stored procedures. -/
structure MySQLDatabase where
  baseTables : List (String × List ColumnMeta)
  views : List String
  functions : List String
  procedures : List String
deriving DecidableEq

/-- Per-database entry of the discovered catalog (`db_info` at
`utils/db_connection.py` lines 53-58): column lists for base tables,
and name-keyed sections for views, functions and procedures. -/
structure DbInfo where
  tables : List (String × List ColumnMeta)
  views : List String
  functions : List String
  procedures : List String
deriving DecidableEq

/-- System databases excluded from discovery
(`utils/db_connection.py` line 36). -/
def excludedDatabases : List String :=
  ["information_schema", "performance_schema", "mysql", "sys"]

/-- Embedding of `get_mysql_schema` (`utils/db_connection.py` lines
26-100).  The server is the list of database names `SHOW DATABASES`
returns, each paired with `none` when any per-database query raises
(the `except Error: continue` path) or with its abstract state.
Excluded databases are skipped; a database whose `SHOW FULL TABLES
WHERE Table_type = 'BASE TABLE'` result is empty is skipped (line
50-51); otherwise base tables are recorded with their columns, views
are recorded by name (lines 86-88), and the `functions` and
`procedures` sections, initialized empty at lines 56-57, are never
filled.  `discoverDbEntry` is the body of the
`for db_name in all_databases` loop (lines 39-96); `none` means the
database is skipped (excluded, errored, or without base tables). -/
def discoverDbEntry (p : String × Option MySQLDatabase) :
    Option (String × DbInfo) :=
  if excludedDatabases.contains p.1 then none
  else
    match p.2 with
    | none => none
    | some db =>
      if db.baseTables.isEmpty then none
      else
        some (p.1,
          { tables := db.baseTables, views := db.views,
            functions := [], procedures := [] })

def get_mysql_schema (server : List (String × Option MySQLDatabase)) :
    List (String × DbInfo) :=
  server.filterMap discoverDbEntry

/-!
Concrete inputs used by witnesses and counterexamples.
-/

/-- Batting participant record in which `runs` is present but falsy (the
integer 0, a duck) while `r` is present with a different value. -/
def c1Batsman : JVal :=
  JVal.obj [("name", JVal.str "Asha"), ("runs", JVal.int 0), ("r", JVal.int 5)]

/-- Row-count function of a driver whose INSERT affects one row. -/
def exInsert : String → List JVal → Nat := fun _ _ => 1

/-- Row-count function of a driver used to instantiate the mutation
gateway calls in witnesses. -/
def exMut : String → Nat := fun _ => 0

/-!
Claim theorems.
-/

/-- A falsy left operand makes the Python `or` return its right
operand. -/
theorem pyOr_of_falsy (a b : JVal) (h : truthy a = false) : pyOr a b = b := by
  simp [pyOr, h]

/-- A truthy left operand short-circuits the Python `or`. -/
theorem pyOr_of_truthy (a b : JVal) (h : truthy a = true) : pyOr a b = a := by
  simp [pyOr, h]

/-- A present key makes `d.get(k, default)` return its stored value. -/
theorem getD_of_lookup (kvs : List (String × JVal)) (k : String) (d v : JVal)
    (h : lookupVal kvs k = some v) : getD kvs k d = v := by
  simp [getD, h]

/-- Catalog entry computed for an accessible, non-excluded database with
at least one base table. -/
theorem discoverDbEntry_eq (dbName : String) (db : MySQLDatabase)
    (hex : excludedDatabases.contains dbName = false)
    (hne : db.baseTables.isEmpty = false) :
    discoverDbEntry (dbName, some db)
      = some (dbName,
          { tables := db.baseTables, views := db.views, functions := [],
            procedures := [] }) := by
  have hex2 : dbName ∉ excludedDatabases := by simpa using hex
  unfold discoverDbEntry
  simp [hex2, hne]

/-- Inversion of `discoverDbEntry`: a produced catalog entry comes from
an accessible, non-excluded database with at least one base table, and
carries exactly its base tables and view names with empty function and
procedure sections. -/
theorem discoverDbEntry_inv (p : String × Option MySQLDatabase)
    (q : String × DbInfo) (h : discoverDbEntry p = some q) :
    ∃ d : MySQLDatabase, p.2 = some d ∧ q.1 = p.1
      ∧ excludedDatabases.contains p.1 = false
      ∧ d.baseTables.isEmpty = false
      ∧ q.2 = { tables := d.baseTables, views := d.views, functions := [],
                procedures := [] } := by
  unfold discoverDbEntry at h
  split at h
  · cases h
  · next hex =>
    split at h
    · cases h
    · next d hd =>
      split at h
      · cases h
      · next hbt =>
        injection h with h2
        refine ⟨d, hd, ?_, by simpa using hex, by simpa using hbt, ?_⟩
        · rw [← h2]
        · rw [← h2]

/-- C1 counterexample: a batting record with both `runs` and `r` present
and different (`runs = 0`, `r = 5`) normalizes with Runs = 5, the value
of `r`, not the value of `runs`: the Python `or`-chain stops at the
first truthy value, not at the first present key. -/
theorem c1_counterexample :
    (batRow c1Batsman).map BatRow.runs = some (JVal.int 5)
    ∧ (batRow c1Batsman).map BatRow.runs ≠ some (JVal.int 0) := by
  refine ⟨rfl, ?_⟩
  intro h
  rw [show (batRow c1Batsman).map BatRow.runs = some (JVal.int 5) from rfl] at h
  simp at h

/-- C1 (amended): for a batting participant record in which both `runs`
and `r` are present, the normalized row's Runs field uses the value of
`runs` whenever that value is truthy; when the value of `runs` is falsy
(e.g. the integer 0) the chain falls through and the Runs field uses the
value of `r`.  Alias resolution stops at the first key whose value is
truthy, not at the first present key. -/
theorem c1_runs_alias_first_truthy (b : List (String × JVal)) (v w : JVal)
    (hruns : lookupVal b "runs" = some v) (hr : lookupVal b "r" = some w) :
    (truthy v = true → (batRow (JVal.obj b)).map BatRow.runs = some v)
    ∧ (truthy v = false → (batRow (JVal.obj b)).map BatRow.runs = some w) := by
  constructor <;> intro ht <;>
    simp [batRow, getD, hruns, hr, pyOr, ht]

/-- Witness for C1: a record with truthy `runs = 7` keeps 7, and a
record with falsy `runs = 0` falls back to `r = 3`. -/
theorem c1_witness :
    (batRow (JVal.obj [("runs", JVal.int 7), ("r", JVal.int 3)])).map BatRow.runs
      = some (JVal.int 7)
    ∧ (batRow (JVal.obj [("runs", JVal.int 0), ("r", JVal.int 3)])).map BatRow.runs
      = some (JVal.int 3) :=
  ⟨(c1_runs_alias_first_truthy [("runs", JVal.int 7), ("r", JVal.int 3)]
      (JVal.int 7) (JVal.int 3) rfl rfl).1 rfl,
   (c1_runs_alias_first_truthy [("runs", JVal.int 0), ("r", JVal.int 3)]
      (JVal.int 0) (JVal.int 3) rfl rfl).2 rfl⟩

/-- C2 counterexample: `insert_row` called with the empty field map is
not rejected: it constructs the degenerate SQL text
`INSERT INTO `players` () VALUES ();`, opens a connection, performs the
database call, and returns success instead of raising a validation
error. -/
theorem c2_counterexample :
    (insert_row exInsert "players" []).1
      = [DbEvent.connect, DbEvent.exec "INSERT INTO `players` () VALUES ();"]
    ∧ (insert_row exInsert "players" []).2
      = Except.ok (1, "INSERT INTO `players` () VALUES ();") := by
  exact ⟨rfl, rfl⟩

/-- C2 (amended): `insert_row` performs no validation of the field map:
for the empty mapping it still constructs the SQL text — the degenerate
statement `INSERT INTO `t` () VALUES ();` — opens a connection, performs
the database call with an empty value list, and returns the driver's row
count instead of raising. -/
theorem c2_insert_row_no_empty_guard (ex : String → List JVal → Nat)
    (table : String) :
    insert_row ex table []
      = ([DbEvent.connect, DbEvent.exec (insertSql table [])],
         Except.ok (ex (insertSql table []) [], insertSql table []))
    ∧ insertSql "players" [] = "INSERT INTO `players` () VALUES ();" := by
  exact ⟨rfl, rfl⟩

/-- C3: for every WHERE-clause argument whose stripped text is empty
(empty or whitespace-only input), `delete_rows` and `execute_update`
raise a validation error and perform no database call — the event trace
is empty, so no connection is opened and no statement is executed — and
`execute_update` likewise raises with no database call when the stripped
SET clause is empty. -/
theorem c3_mutation_guards (ex : String → Nat)
    (table set_clause where_clause : String) :
    (pyStrip where_clause = "" →
      delete_rows ex table where_clause
          = ([], Except.error "Refusing to DELETE without WHERE clause.")
        ∧ (execute_update ex table set_clause where_clause).1 = []
        ∧ exceptIsOk (execute_update ex table set_clause where_clause).2 = false)
    ∧ (pyStrip set_clause = "" →
      execute_update ex table set_clause where_clause
        = ([], Except.error "SET clause cannot be empty.")) := by
  constructor
  · intro hw
    refine ⟨by simp [delete_rows, hw], ?_, ?_⟩ <;>
      by_cases hs : pyStrip set_clause = "" <;>
        simp [execute_update, hw, hs, exceptIsOk]
  · intro hs
    simp [execute_update, hs]

/-- Witness for C3: a whitespace-only WHERE clause makes `delete_rows`
raise with an empty event trace, and an empty SET clause makes
`execute_update` raise with an empty event trace. -/
theorem c3_witness :
    delete_rows exMut "players" "   "
        = ([], Except.error "Refusing to DELETE without WHERE clause.")
    ∧ execute_update exMut "players" " " "id=1"
        = ([], Except.error "SET clause cannot be empty.") :=
  ⟨((c3_mutation_guards exMut "players" "x=1" "   ").1 (by decide)).1,
   (c3_mutation_guards exMut "players" " " "id=1").2 (by decide)⟩

/-- C4: the innings collection is resolved by trying `scorecard`,
`scoreCard`, `innings`, `scoreCards` in exactly that order; the first
present non-empty (truthy) value wins; a winning mapping is converted to
the sequence of its values in iteration order; and a document exposing
only `scoreCard` yields the same innings records as one exposing the
identical content under `scorecard`. -/
theorem c4_innings_key_priority (data : List (String × JVal)) (v c : JVal)
    (kvs : List (String × JVal)) :
    ((lookupVal data "scorecard" = some v → truthy v = true →
        resolveInnings data = v)
    ∧ (truthy (getD data "scorecard" JVal.null) = false →
        lookupVal data "scoreCard" = some v → truthy v = true →
        resolveInnings data = v)
    ∧ (truthy (getD data "scorecard" JVal.null) = false →
        truthy (getD data "scoreCard" JVal.null) = false →
        lookupVal data "innings" = some v → truthy v = true →
        resolveInnings data = v)
    ∧ (truthy (getD data "scorecard" JVal.null) = false →
        truthy (getD data "scoreCard" JVal.null) = false →
        truthy (getD data "innings" JVal.null) = false →
        resolveInnings data = getD data "scoreCards" JVal.null)
    ∧ (resolveInnings data = JVal.obj kvs → kvs ≠ [] →
        inningsRecords data = InningsResolution.found (kvs.map Prod.snd)))
    ∧ inningsRecords [("scoreCard", c)] = inningsRecords [("scorecard", c)] := by
  refine ⟨⟨?_, ?_, ?_, ?_, ?_⟩, ?_⟩
  · intro h ht
    unfold resolveInnings
    rw [getD_of_lookup _ _ _ _ h, pyOr_of_truthy _ _ ht]
  · intro h0 h ht
    unfold resolveInnings
    rw [pyOr_of_falsy _ _ h0, getD_of_lookup _ _ _ _ h, pyOr_of_truthy _ _ ht]
  · intro h0 h1 h ht
    unfold resolveInnings
    rw [pyOr_of_falsy _ _ h0, pyOr_of_falsy _ _ h1, getD_of_lookup _ _ _ _ h,
        pyOr_of_truthy _ _ ht]
  · intro h0 h1 h2
    unfold resolveInnings
    rw [pyOr_of_falsy _ _ h0, pyOr_of_falsy _ _ h1, pyOr_of_falsy _ _ h2]
  · intro hres hne
    unfold inningsRecords
    rw [hres]
    cases kvs with
    | nil => exact absurd rfl hne
    | cons a as => rfl
  · unfold inningsRecords
    rw [show resolveInnings [("scoreCard", c)] = pyOr c JVal.null from rfl,
        show resolveInnings [("scorecard", c)] = pyOr c JVal.null from rfl]

/-- Witness for C4: with both `scorecard` and `scoreCard` present and
non-empty, the `scorecard` content wins; and a non-empty mapping winner
is converted to the sequence of its values in iteration order. -/
theorem c4_witness :
    resolveInnings
        [("matchHeader", JVal.obj [("state", JVal.str "live")]),
         ("scorecard", JVal.arr [JVal.obj [("inningsId", JVal.int 1)]]),
         ("scoreCard", JVal.arr [JVal.obj [("inningsId", JVal.int 2)]])]
      = JVal.arr [JVal.obj [("inningsId", JVal.int 1)]]
    ∧ inningsRecords
        [("scoreCard", JVal.obj [("1", JVal.obj []), ("2", JVal.str "x")])]
      = InningsResolution.found [JVal.obj [], JVal.str "x"] :=
  ⟨((c4_innings_key_priority
      [("matchHeader", JVal.obj [("state", JVal.str "live")]),
       ("scorecard", JVal.arr [JVal.obj [("inningsId", JVal.int 1)]]),
       ("scoreCard", JVal.arr [JVal.obj [("inningsId", JVal.int 2)]])]
      (JVal.arr [JVal.obj [("inningsId", JVal.int 1)]]) JVal.null []).1.1
      rfl rfl),
   ((c4_innings_key_priority
      [("scoreCard", JVal.obj [("1", JVal.obj []), ("2", JVal.str "x")])]
      JVal.null JVal.null
      [("1", JVal.obj []), ("2", JVal.str "x")]).1.2.2.2.2
      rfl (by simp))⟩

/-- C5 counterexample: a reachable server state refutes both parts of
the claim.  The accessible, non-excluded database `stats_empty` has a
view, a function and a procedure but no base table, and is omitted from
the catalog entirely; and for `statsdb`, which is included, the function
and procedure names present on the server are not recorded — the
catalog's `functions` and `procedures` sections come out empty, so those
objects are not recorded by name. -/
theorem c5_counterexample :
    get_mysql_schema
        [("stats_empty",
          some { baseTables := [], views := ["v1"], functions := ["f1"],
                 procedures := ["p1"] })]
      = []
    ∧ (get_mysql_schema
        [("statsdb",
          some { baseTables := [("players", [])], views := [],
                 functions := ["fn_avg"], procedures := ["sp_load"] })]).map
        (fun p => (p.1, p.2.functions, p.2.procedures))
      = [("statsdb", [], [])] := by
  exact ⟨rfl, rfl⟩

/-- C5 (amended): every catalog entry records the database's views by
name without column introspection, its `functions` and `procedures`
sections are always empty (the code initializes them and never fills
them), and columns are introspected for base tables only; a
non-excluded accessible database appears in the catalog exactly when its
base-table list is non-empty — accessible databases without base tables
are silently skipped. -/
theorem c5_catalog_content (server : List (String × Option MySQLDatabase))
    (dbName : String) (db : MySQLDatabase) :
    ((dbName, some db) ∈ server → excludedDatabases.contains dbName = false →
      db.baseTables ≠ [] →
      (dbName,
        ({ tables := db.baseTables, views := db.views, functions := [],
           procedures := [] } : DbInfo)) ∈ get_mysql_schema server)
    ∧ (∀ info : DbInfo, (dbName, info) ∈ get_mysql_schema server →
        info.functions = [] ∧ info.procedures = []
        ∧ ∃ d : MySQLDatabase, (dbName, some d) ∈ server
            ∧ excludedDatabases.contains dbName = false
            ∧ d.baseTables ≠ []
            ∧ info.tables = d.baseTables ∧ info.views = d.views) := by
  constructor
  · intro hmem hex hne
    exact List.mem_filterMap.mpr ⟨(dbName, some db), hmem,
      discoverDbEntry_eq dbName db hex (by simp [List.isEmpty_eq_false, hne])⟩
  · intro info hinfo
    obtain ⟨p, hpmem, hp⟩ := List.mem_filterMap.mp hinfo
    obtain ⟨d, hd, hq1, hex, hbt, hq2⟩ := discoverDbEntry_inv p (dbName, info) hp
    dsimp only at hq1 hq2
    subst hq2
    refine ⟨rfl, rfl, d, ?_, ?_, ?_, rfl, rfl⟩
    · have hpeq : p = (dbName, some d) := by
        rcases p with ⟨a, b⟩
        dsimp only at hq1 hd
        rw [hq1, hd]
      exact hpeq ▸ hpmem
    · rw [hq1]
      exact hex
    · simpa [List.isEmpty_eq_false] using hbt

/-- Witness for C5 (amended): a server exposing one non-excluded
database with a base table and a view yields exactly the catalog entry
with the view recorded by name and empty function/procedure sections. -/
theorem c5_witness :
    ("statsdb",
      ({ tables := [("players", [])], views := ["v_top"], functions := [],
         procedures := [] } : DbInfo))
      ∈ get_mysql_schema
          [("statsdb",
            some { baseTables := [("players", [])], views := ["v_top"],
                   functions := ["fn_avg"], procedures := ["sp_load"] })] :=
  (c5_catalog_content
      [("statsdb",
        some { baseTables := [("players", [])], views := ["v_top"],
               functions := ["fn_avg"], procedures := ["sp_load"] })]
      "statsdb"
      { baseTables := [("players", [])], views := ["v_top"],
        functions := ["fn_avg"], procedures := ["sp_load"] }).1
    (by simp) rfl (by simp)

/-- C6: `run_select` executes a query if and only if its stripped,
lowered text starts with `select`: success coincides with that textual
test, the event trace is empty (no connection, no execution) exactly
when the test fails, `update players set x=1` is rejected and
`select * from players` is accepted. -/
theorem c6_run_select_guard (exq : String → List (List JVal)) (q : String) :
    (exceptIsOk (run_select exq q).2 = pyStartsWith (pyLower (pyStrip q)) "select")
    ∧ ((run_select exq q).1 = []
        ↔ pyStartsWith (pyLower (pyStrip q)) "select" = false)
    ∧ exceptIsOk (run_select exq "update players set x=1").2 = false
    ∧ exceptIsOk (run_select exq "select * from players").2 = true := by
  refine ⟨?_, ?_, rfl, rfl⟩ <;>
    cases hb : pyStartsWith (pyLower (pyStrip q)) "select" <;>
      simp [run_select, hb, exceptIsOk]

/-- Batting source selected from a plain list under `batsman`. -/
theorem batsmenSource_of_list (i : List (String × JVal)) (xs : List JVal)
    (h : getD i "batsman" JVal.null = JVal.arr xs) : batsmenSource i = xs := by
  unfold batsmenSource
  rw [h]

/-- Batting source selected from a mapping under `batsmenData` when
`batsman` is not a list: the mapping's values in iteration order. -/
theorem batsmenSource_of_dict (i : List (String × JVal))
    (kvs : List (String × JVal))
    (h2 : isList (getD i "batsman" JVal.null) = false)
    (h3 : getD i "batsmenData" JVal.null = JVal.obj kvs) :
    batsmenSource i = kvs.map Prod.snd := by
  unfold batsmenSource
  cases hv : getD i "batsman" JVal.null with
  | arr zs => rw [hv] at h2; simp [isList] at h2
  | null => rw [h3]
  | bool b => rw [h3]
  | int n => rw [h3]
  | str s => rw [h3]
  | obj o => rw [h3]

/-- Bowling source selected from a plain list under `bowler`. -/
theorem bowlersSource_of_list (j : List (String × JVal)) (ys : List JVal)
    (h : getD j "bowler" JVal.null = JVal.arr ys) : bowlersSource j = ys := by
  unfold bowlersSource
  rw [h]

/-- Bowling source selected from a mapping under `bowlersData` when
`bowler` is not a list. -/
theorem bowlersSource_of_dict (j : List (String × JVal))
    (lvs : List (String × JVal))
    (h2 : isList (getD j "bowler" JVal.null) = false)
    (h3 : getD j "bowlersData" JVal.null = JVal.obj lvs) :
    bowlersSource j = lvs.map Prod.snd := by
  unfold bowlersSource
  cases hv : getD j "bowler" JVal.null with
  | arr zs => rw [hv] at h2; simp [isList] at h2
  | null => rw [h3]
  | bool b => rw [h3]
  | int n => rw [h3]
  | str s => rw [h3]
  | obj o => rw [h3]

/-- C7: an innings whose batting participants come as a plain list and
an innings whose batting participants come as a mapping of player id to
stats with the same values in the same order produce identical
normalized batting rows; likewise for the bowling participants. -/
theorem c7_mapping_vs_list_rows (i1 i2 j1 j2 : List (String × JVal))
    (xs ys : List JVal) (kvs lvs : List (String × JVal)) :
    ((getD i1 "batsman" JVal.null = JVal.arr xs →
      isList (getD i2 "batsman" JVal.null) = false →
      getD i2 "batsmenData" JVal.null = JVal.obj kvs →
      kvs.map Prod.snd = xs →
      battingRows i1 = battingRows i2)
    ∧ (getD j1 "bowler" JVal.null = JVal.arr ys →
      isList (getD j2 "bowler" JVal.null) = false →
      getD j2 "bowlersData" JVal.null = JVal.obj lvs →
      lvs.map Prod.snd = ys →
      bowlingRows j1 = bowlingRows j2)) := by
  constructor
  · intro h1 h2 h3 h4
    unfold battingRows
    rw [batsmenSource_of_list i1 xs h1, batsmenSource_of_dict i2 kvs h2 h3, h4]
  · intro h1 h2 h3 h4
    unfold bowlingRows
    rw [bowlersSource_of_list j1 ys h1, bowlersSource_of_dict j2 lvs h2 h3, h4]

/-- Witness for C7: one batsman (and one bowler) supplied as a
singleton list versus a singleton id-keyed mapping with the same stats
record yield the same normalized rows. -/
theorem c7_witness :
    battingRows
        [("batsman", JVal.arr [JVal.obj [("name", JVal.str "A"),
            ("runs", JVal.int 10)]])]
      = battingRows
          [("batsmenData", JVal.obj [("101", JVal.obj [("name", JVal.str "A"),
              ("runs", JVal.int 10)])])]
    ∧ bowlingRows
        [("bowler", JVal.arr [JVal.obj [("name", JVal.str "B"),
            ("wickets", JVal.int 2)]])]
      = bowlingRows
          [("bowlersData", JVal.obj [("7", JVal.obj [("name", JVal.str "B"),
              ("wickets", JVal.int 2)])])] :=
  ⟨(c7_mapping_vs_list_rows
      [("batsman", JVal.arr [JVal.obj [("name", JVal.str "A"),
          ("runs", JVal.int 10)]])]
      [("batsmenData", JVal.obj [("101", JVal.obj [("name", JVal.str "A"),
          ("runs", JVal.int 10)])])]
      [] []
      [JVal.obj [("name", JVal.str "A"), ("runs", JVal.int 10)]] []
      [("101", JVal.obj [("name", JVal.str "A"), ("runs", JVal.int 10)])]
      []).1 rfl rfl rfl rfl,
   (c7_mapping_vs_list_rows [] []
      [("bowler", JVal.arr [JVal.obj [("name", JVal.str "B"),
          ("wickets", JVal.int 2)]])]
      [("bowlersData", JVal.obj [("7", JVal.obj [("name", JVal.str "B"),
          ("wickets", JVal.int 2)])])]
      [] [JVal.obj [("name", JVal.str "B"), ("wickets", JVal.int 2)]]
      []
      [("7", JVal.obj [("name", JVal.str "B"), ("wickets", JVal.int 2)])]).2
      rfl rfl rfl rfl⟩

/-- C8: `fetch_table` builds exactly the SQL text `SELECT * FROM`
followed by the backtick-quoted table name and `LIMIT` followed by the
integer literal of the limit (never a placeholder), returns that exact
text alongside the result set, and the result contains at most `limit`
rows; with limit 5 the text is literally
`SELECT * FROM \x60players\x60 LIMIT 5;`. -/
theorem c8_fetch_table_sql (tableRows : List (List JVal)) (table : String)
    (limit : Nat) :
    (fetch_table tableRows table limit).2.2
      = "SELECT * FROM `" ++ table ++ "` LIMIT " ++ toString limit ++ ";"
    ∧ (fetch_table tableRows table limit).2.1.length ≤ limit
    ∧ (fetch_table tableRows "players" 5).2.2
      = "SELECT * FROM `players` LIMIT 5;" := by
  refine ⟨rfl, ?_, rfl⟩
  show (tableRows.take limit).length ≤ limit
  rw [List.length_take]
  exact Nat.min_le_left _ _

/-- C9: schema discovery never includes the system databases
`information_schema`, `performance_schema`, `mysql`, or `sys` in its
result, whatever databases the server lists as accessible: every
database name in the catalog fails the exclusion test. -/
theorem c9_system_databases_never_in_catalog
    (server : List (String × Option MySQLDatabase)) :
    ((get_mysql_schema server).map Prod.fst).all
      (fun n => !(excludedDatabases.contains n)) = true := by
  rw [List.all_eq_true]
  intro n hn
  rw [List.mem_map] at hn
  obtain ⟨q, hq, hqn⟩ := hn
  obtain ⟨p, hpmem, hp⟩ := List.mem_filterMap.mp hq
  obtain ⟨d, hd, hq1, hex, hbt, hq2⟩ := discoverDbEntry_inv p q hp
  subst hqn
  rw [hq1, hex]
  rfl

/-- C10: for every live-matches document that lacks the top-level
grouping key `typeMatches`, the grouping of live matches is the empty
dict and no exception is raised: the computation succeeds with an empty
result, which the page renders as "no live matches". -/
theorem c10_missing_grouping_key (data : List (String × JVal))
    (h : lookupVal data "typeMatches" = none) :
    seriesOptionsOf data = some [] := by
  unfold seriesOptionsOf
  rw [show getD data "typeMatches" (JVal.arr []) = JVal.arr [] by
        unfold getD; rw [h]; rfl]
  rfl

/-- Witness for C10: a document whose only key is a metadata field has
no `typeMatches` key and normalizes to the empty grouping. -/
theorem c10_witness :
    lookupVal [("responseLastUpdated", JVal.str "1696")] "typeMatches" = none
    ∧ seriesOptionsOf [("responseLastUpdated", JVal.str "1696")] = some [] :=
  ⟨rfl, c10_missing_grouping_key [("responseLastUpdated", JVal.str "1696")] rfl⟩
